import Mathlib

/-
Shallow embedding of the Gayathri-Mallimoggala/backend server
(src/unnamed/part_000; src/src/server.js is an earlier variant of the same
file that lacks the sendNotification helper and the status-update step of
the payments handler, and is not the self-consistent program).

The MySQL tables become lists of records inside a `DB` value; each
`pool.execute` call that can raise a StorageError takes an explicit Bool
fault flag and returns `Except String DB`.  WebSocket clients are records
with a `readyState`; `client.send` on an OPEN socket buffers the frame and
surfaces failures asynchronously, so a per-client failure predicate affects
only the `delivered` flag of a send outcome, never whether later clients
are attempted.
-/

namespace Backend

/-- WebSocket ready states in the ws library: CONNECTING=0, OPEN=1,
CLOSING=2, CLOSED=3. -/
def wsOPEN : Nat := 1

/-- Row of the `users` table. -/
structure User where
  id : Nat
  name : String
  email : String
  password : String
  deriving Repr, DecidableEq

/-- Row of the `customers` table. -/
structure Customer where
  id : Nat
  name : String
  contact : String
  outstandingAmount : Int
  dueDate : Int
  paymentStatus : String
  deriving Repr, DecidableEq

/-- Row of the `payments` table. -/
structure Payment where
  id : Nat
  customerId : Nat
  amount : Int
  paymentDate : Int
  deriving Repr, DecidableEq

/-- Row of the `notifications` table. -/
structure Notification where
  id : Nat
  type : String
  message : String
  createdAt : Int
  deriving Repr, DecidableEq

/-- The four tables of the MySQL database, in insertion order (auto-increment
ids are modelled as the row count at insertion time). -/
structure DB where
  users : List User
  customers : List Customer
  payments : List Payment
  notifications : List Notification
  deriving Repr, DecidableEq

/-- A WebSocket client handle from `wss.clients`. -/
structure Client where
  id : Nat
  readyState : Nat
  deriving Repr, DecidableEq

/-- The `{ type, message }` object passed to sendNotification. -/
structure NotifMsg where
  type : String
  message : String
  deriving Repr, DecidableEq

/-- JSON.stringify of a `{ type, message }` object. -/
def serializeMsg (m : NotifMsg) : String :=
  "\x7b\"type\":\"" ++ m.type ++ "\",\"message\":\"" ++ m.message ++ "\"\x7d"

/-- Record of one `client.send` attempt during a broadcast. -/
structure SendOutcome where
  clientId : Nat
  payload : String
  delivered : Bool
  deriving Repr, DecidableEq

/-- The broadcast loop of sendNotification (part_000 lines 44-48):
`wss.clients.forEach((client) => { if (client.readyState === WebSocket.OPEN)
client.send(JSON.stringify(message)); })`.  A send to an OPEN socket fails
only asynchronously, so `sendFails` marks the outcome undelivered without
stopping the iteration. -/
def broadcastRun (sendFails : Nat → Bool) (payload : String) :
    List Client → List SendOutcome
  | [] => []
  | c :: cs =>
    if c.readyState == wsOPEN then
      ⟨c.id, payload, !(sendFails c.id)⟩ :: broadcastRun sendFails payload cs
    else
      broadcastRun sendFails payload cs

/-- Statement `INSERT INTO notifications (type, message, createdAt) VALUES (?, ?, NOW())`;
`ok` is the fault flag of the execute call. -/
def insertNotification (db : DB) (ok : Bool) (t msg : String) (now : Int) :
    Except String DB :=
  if ok then
    .ok { db with
      notifications := db.notifications ++
        [⟨db.notifications.length, t, msg, now⟩] }
  else
    .error "StorageError"

/-- Result of one sendNotification call: the database afterwards, the send
attempts made, and whether the catch block logged an error. -/
structure EmitResult where
  db : DB
  outcomes : List SendOutcome
  errorLogged : Bool
  deriving Repr, DecidableEq

/-- The body of sendNotification's try block (part_000 lines 38-48): insert
the notification row, then broadcast the serialized message. -/
def sendNotificationTry (db : DB) (clients : List Client) (insertOk : Bool)
    (sendFails : Nat → Bool) (m : NotifMsg) (now : Int) :
    Except String (DB × List SendOutcome) := do
  let db1 ← insertNotification db insertOk m.type m.message now
  pure (db1, broadcastRun sendFails (serializeMsg m) clients)

/-- sendNotification (part_000 lines 37-52).  The catch block swallows the
error and logs it, so the function is total: it never throws to its caller. -/
def sendNotification (db : DB) (clients : List Client) (insertOk : Bool)
    (sendFails : Nat → Bool) (m : NotifMsg) (now : Int) : EmitResult :=
  match sendNotificationTry db clients insertOk sendFails m now with
  | .ok (db1, outs) => ⟨db1, outs, false⟩
  | .error _ => ⟨db, [], true⟩

/-- An HTTP JSON response: `res.json({message})` or
`res.status(s).json({message, ...})`. -/
inductive Resp where
  | ok (message : String)
  | error (status : Nat) (message : String)
  deriving Repr, DecidableEq

/-- Result of one request handler: the database afterwards, the send
attempts of any broadcast it triggered, and the HTTP response. -/
structure HandlerResult where
  db : DB
  outcomes : List SendOutcome
  resp : Resp
  deriving Repr, DecidableEq

/-- Statement `INSERT INTO payments (customerId, amount, paymentDate) VALUES (?, ?, NOW())`. -/
def dbInsertPayment (db : DB) (ok : Bool) (customerId : Nat) (amount : Int)
    (now : Int) : Except String DB :=
  if ok then
    .ok { db with
      payments := db.payments ++ [⟨db.payments.length, customerId, amount, now⟩] }
  else
    .error "StorageError"

/-- Statement `UPDATE customers SET paymentStatus = ? WHERE id = ?`. -/
def dbUpdatePaymentStatus (db : DB) (ok : Bool) (status : String)
    (customerId : Nat) : Except String DB :=
  if ok then
    .ok { db with
      customers := db.customers.map fun c =>
        if c.id = customerId then { c with paymentStatus := status } else c }
  else
    .error "StorageError"

/-- Per-statement fault flags for the three statements of the payments
handler. -/
structure PaymentFaults where
  insertOk : Bool
  updateOk : Bool
  notifInsertOk : Bool
  deriving Repr, DecidableEq

/-- app.post("/payments") (part_000 lines 156-182): insert the payment row,
flip the customer's paymentStatus to "Completed", emit a payment_received
notification, answer 200; any thrown StorageError is caught and answered
with 500, leaving whatever had already been executed in place. -/
def postPayments (db : DB) (clients : List Client) (f : PaymentFaults)
    (sendFails : Nat → Bool) (customerId : Nat) (amount : Int) (now : Int) :
    HandlerResult :=
  match dbInsertPayment db f.insertOk customerId amount now with
  | .error e => ⟨db, [], .error 500 ("Payment processing failed: " ++ e)⟩
  | .ok db1 =>
    match dbUpdatePaymentStatus db1 f.updateOk "Completed" customerId with
    | .error e => ⟨db1, [], .error 500 ("Payment processing failed: " ++ e)⟩
    | .ok db2 =>
      let r := sendNotification db2 clients f.notifInsertOk sendFails
        ⟨"payment_received",
          "Payment of $" ++ toString amount ++ " received for Customer ID " ++
            toString customerId⟩ now
      ⟨r.db, r.outcomes, .ok "Payment processed successfully"⟩

/-- Statement `INSERT INTO customers (name, contact, outstandingAmount, dueDate,
paymentStatus) VALUES (?, ?, ?, ?, ?)`. -/
def dbInsertCustomer (db : DB) (ok : Bool) (name contact : String)
    (outstandingAmount dueDate : Int) (paymentStatus : String) :
    Except String DB :=
  if ok then
    .ok { db with
      customers := db.customers ++
        [⟨db.customers.length, name, contact, outstandingAmount, dueDate,
          paymentStatus⟩] }
  else
    .error "StorageError"

/-- app.post("/customers") (part_000 lines 91-111): insert the customer row,
emit a customer_added notification, answer 200; a thrown StorageError is
caught and answered with 500.  sendNotification never throws, so a failed
notification insert does not reach the handler's catch. -/
def postCustomers (db : DB) (clients : List Client)
    (insertOk notifInsertOk : Bool) (sendFails : Nat → Bool)
    (name contact : String) (outstandingAmount dueDate : Int)
    (paymentStatus : String) (now : Int) : HandlerResult :=
  match dbInsertCustomer db insertOk name contact outstandingAmount dueDate
      paymentStatus with
  | .error e => ⟨db, [], .error 500 ("Failed to add customer: " ++ e)⟩
  | .ok db1 =>
    let r := sendNotification db1 clients notifInsertOk sendFails
      ⟨"customer_added", "New customer " ++ name ++ " added successfully"⟩ now
    ⟨r.db, r.outcomes, .ok "Customer added successfully"⟩

/-- The overdue query:
`SELECT id, name FROM customers WHERE paymentStatus = "Pending" AND dueDate < NOW()`. -/
def overdueQuery (db : DB) (now : Int) : List Customer :=
  db.customers.filter fun c =>
    c.paymentStatus == "Pending" && decide (c.dueDate < now)

/-- The message object built for one overdue customer (part_000 lines 205-208). -/
def overdueMsg (c : Customer) : NotifMsg :=
  ⟨"payment_overdue",
    "Payment overdue for Customer: " ++ c.name ++ " (ID: " ++ toString c.id ++ ")"⟩

/-- Result of one scanner tick. -/
structure ScanResult where
  db : DB
  outcomes : List SendOutcome
  errorLogged : Bool
  deriving Repr, DecidableEq

/-- Loop `overdueCustomers.forEach(async (customer) => { await sendNotification(...) })`:
one sendNotification per matched customer, each catching its own failure
(`insOk` gives the fault flag of each customer's notification insert). -/
def emitOverdue (clients : List Client) (insOk : Nat → Bool)
    (sendFails : Nat → Bool) (now : Int) :
    DB → List Customer → DB × List SendOutcome
  | db, [] => (db, [])
  | db, c :: cs =>
    let r := sendNotification db clients (insOk c.id) sendFails (overdueMsg c) now
    let rest := emitOverdue clients insOk sendFails now r.db cs
    (rest.1, r.outcomes ++ rest.2)

/-- checkOverduePayments (part_000 lines 198-213): run the overdue query
(`queryOk` its fault flag) and emit one payment_overdue notification per
match; if the query throws, the catch block logs and the tick ends with no
emission.  The function is total: it never throws. -/
def checkOverduePayments (db : DB) (clients : List Client) (queryOk : Bool)
    (insOk : Nat → Bool) (sendFails : Nat → Bool) (now : Int) : ScanResult :=
  if queryOk then
    let r := emitOverdue clients insOk sendFails now db (overdueQuery db now)
    ⟨r.1, r.2, false⟩
  else
    ⟨db, [], true⟩

/-- One row of the parsed spreadsheet, destructured as
`{ Name, Contact, "Outstanding Amount", "Due Date", "Payment Status" }`. -/
structure SheetRow where
  rowName : String
  rowContact : String
  rowOutstandingAmount : Int
  rowDueDate : Int
  rowPaymentStatus : String
  deriving Repr, DecidableEq

/-- The customer row a sheet row is inserted as. -/
def rowToCustomer (nextId : Nat) (r : SheetRow) : Customer :=
  ⟨nextId, r.rowName, r.rowContact, r.rowOutstandingAmount, r.rowDueDate,
    r.rowPaymentStatus⟩

/-- The insert loop of the upload transaction (part_000 lines 228-241):
sequential inserts on one connection inside `beginTransaction`; `rowOk`
is the fault flag of each row's insert.  The result is the uncommitted
customer-table contents, or the first thrown StorageError. -/
def insertRowsTx (rowOk : SheetRow → Bool) :
    List Customer → List SheetRow → Except String (List Customer)
  | cs, [] => .ok cs
  | cs, r :: rs =>
    if rowOk r then
      insertRowsTx rowOk (cs ++ [rowToCustomer cs.length r]) rs
    else
      .error "StorageError"

/-- app.post("/upload-customers") (part_000 lines 216-257): 400 if no file;
otherwise insert every parsed row inside one transaction and commit
(`commitOk` the commit's fault flag); on any thrown error, rollback
discards the uncommitted rows and the outer catch answers 500. -/
def uploadCustomers (db : DB) (fileRows : Option (List SheetRow))
    (rowOk : SheetRow → Bool) (commitOk : Bool) : DB × Resp :=
  match fileRows with
  | none => (db, .error 400 "No file uploaded")
  | some rows =>
    match insertRowsTx rowOk db.customers rows with
    | .ok cs =>
      if commitOk then
        ({ db with customers := cs }, .ok "Customers uploaded successfully")
      else
        (db, .error 500 "Failed to process file: StorageError")
    | .error e => (db, .error 500 ("Failed to process file: " ++ e))

/-- Model of `bcrypt.hash(password, 10)`: bcrypt is a standard library call
outside this repository; the contract the handlers rely on is that the hash
determines the password up to comparison, so an injective tagging models it. -/
def bcryptHash (password : String) : String :=
  "$2a$10$" ++ password

/-- Model of `bcrypt.compare(password, stored)`: true exactly when `stored`
is the hash of `password`. -/
def bcryptCompare (password stored : String) : Bool :=
  stored == bcryptHash password

/-- Model of `jwt.sign({ id }, SECRET_KEY)`: a token determined by the
payload and the secret, never the empty string. -/
def jwtSign (id : Nat) (secret : String) : String :=
  "jwt." ++ toString id ++ "." ++ secret

/-- Statement `INSERT INTO users (name, email, password) VALUES (?, ?, ?)`; the users
table has a unique constraint on email (spec §3), so inserting a duplicate
email raises a StorageError, as does any injected fault. -/
def dbInsertUser (db : DB) (ok : Bool) (name email hashed : String) :
    Except String DB :=
  if ok && db.users.all (fun u => u.email != email) then
    .ok { db with users := db.users ++ [⟨db.users.length, name, email, hashed⟩] }
  else
    .error "StorageError"

/-- app.post("/register") (part_000 lines 54-70): hash the password, insert
the user, answer 200; a thrown StorageError is caught and answered with 500. -/
def registerUser (db : DB) (ok : Bool) (name email password : String) :
    DB × Resp :=
  match dbInsertUser db ok name email (bcryptHash password) with
  | .ok db1 => (db1, .ok "User registered successfully")
  | .error e => (db, .error 500 ("Registration failed: " ++ e))

/-- Response of the login handler. -/
inductive LoginResult where
  | token (t : String)
  | unauthorized
  | serverError (message : String)
  deriving Repr, DecidableEq

/-- app.post("/login") (part_000 lines 72-89): select the users with the
given email (`queryOk` the fault flag); if the result is non-empty and
bcrypt.compare accepts rows[0], answer a signed token, else 401; a thrown
StorageError is answered with 500. -/
def loginUser (db : DB) (queryOk : Bool) (secret : String)
    (email password : String) : LoginResult :=
  if queryOk then
    match db.users.filter (fun u => u.email == email) with
    | [] => .unauthorized
    | u :: _ =>
      if bcryptCompare password u.password then
        .token (jwtSign u.id secret)
      else
        .unauthorized
  else
    .serverError "Login failed"

/-- Response of the single-customer endpoint. -/
inductive GetCustomerResult where
  | found (c : Customer)
  | notFound
  | storageError
  deriving Repr, DecidableEq

/-- Modelled from the spec: no GET /customers/:id handler appears in src/
(part_000 and server.js define only GET /customers); the spec's endpoint
table gives `GET /customers/:id — customer | 404 not found, 500`, so the
handler selects the customers with the given id, answers the record when
one exists, 404 when none does, and 500 on a storage failure. -/
def getCustomerById (db : DB) (queryOk : Bool) (cid : Nat) :
    GetCustomerResult :=
  if queryOk then
    match db.customers.filter (fun c => c.id == cid) with
    | [] => .notFound
    | c :: _ => .found c
  else
    .storageError

/-- Projection of a notification row to the caller-supplied content
(auto-increment id and NOW() timestamp stripped). -/
def notifBody (n : Notification) : String × String :=
  (n.type, n.message)

/-- Projection of a customer row to the caller-supplied content
(auto-increment id stripped). -/
def custBody (c : Customer) : String × String × Int × Int × String :=
  (c.name, c.contact, c.outstandingAmount, c.dueDate, c.paymentStatus)

/-- The content a sheet row asks to persist. -/
def rowBody (r : SheetRow) : String × String × Int × Int × String :=
  (r.rowName, r.rowContact, r.rowOutstandingAmount, r.rowDueDate,
    r.rowPaymentStatus)

/-! ### Helper lemmas -/

lemma broadcastRun_map_clientId (sendFails : Nat → Bool) (p : String) :
    ∀ clients : List Client,
      (broadcastRun sendFails p clients).map SendOutcome.clientId
        = (clients.filter fun c => c.readyState == wsOPEN).map Client.id
  | [] => rfl
  | c :: cs => by
    by_cases h : c.readyState == wsOPEN <;>
      simp [broadcastRun, List.filter_cons, h,
        broadcastRun_map_clientId sendFails p cs]

lemma broadcastRun_payload (sendFails : Nat → Bool) (p : String) :
    ∀ clients : List Client, ∀ o ∈ broadcastRun sendFails p clients,
      o.payload = p
  | [] => by intro o ho; simp [broadcastRun] at ho
  | c :: cs => by
    intro o ho
    by_cases h : c.readyState == wsOPEN <;>
      simp [broadcastRun, h] at ho
    · rcases ho with ho | ho
      · simp [ho]
      · exact broadcastRun_payload sendFails p cs o ho
    · exact broadcastRun_payload sendFails p cs o ho

lemma broadcastRun_attempt (sendFails : Nat → Bool) (p : String) :
    ∀ clients : List Client, ∀ c ∈ clients, c.readyState = wsOPEN →
      ⟨c.id, p, !(sendFails c.id)⟩ ∈ broadcastRun sendFails p clients
  | [], c, hc, _ => by simp at hc
  | d :: cs, c, hc, hopen => by
    rcases List.mem_cons.mp hc with h | h
    · subst h
      simp [broadcastRun, hopen]
    · by_cases hd : d.readyState == wsOPEN <;>
        simp [broadcastRun, hd]
      · exact .inr (broadcastRun_attempt sendFails p cs c h hopen)
      · exact broadcastRun_attempt sendFails p cs c h hopen

lemma sendNotification_ok (db : DB) (clients : List Client)
    (sendFails : Nat → Bool) (m : NotifMsg) (now : Int) :
    sendNotification db clients true sendFails m now =
      ⟨{ db with notifications := db.notifications ++
          [⟨db.notifications.length, m.type, m.message, now⟩] },
        broadcastRun sendFails (serializeMsg m) clients, false⟩ := rfl

lemma sendNotification_fail (db : DB) (clients : List Client)
    (sendFails : Nat → Bool) (m : NotifMsg) (now : Int) :
    sendNotification db clients false sendFails m now = ⟨db, [], true⟩ := rfl

lemma sendNotification_customers (db : DB) (clients : List Client)
    (insertOk : Bool) (sendFails : Nat → Bool) (m : NotifMsg) (now : Int) :
    (sendNotification db clients insertOk sendFails m now).db.customers
      = db.customers := by
  cases insertOk
  · simp [sendNotification_fail]
  · simp [sendNotification_ok]

lemma sendNotification_payments (db : DB) (clients : List Client)
    (insertOk : Bool) (sendFails : Nat → Bool) (m : NotifMsg) (now : Int) :
    (sendNotification db clients insertOk sendFails m now).db.payments
      = db.payments := by
  cases insertOk
  · simp [sendNotification_fail]
  · simp [sendNotification_ok]

lemma sendNotification_users (db : DB) (clients : List Client)
    (insertOk : Bool) (sendFails : Nat → Bool) (m : NotifMsg) (now : Int) :
    (sendNotification db clients insertOk sendFails m now).db.users
      = db.users := by
  cases insertOk
  · simp [sendNotification_fail]
  · simp [sendNotification_ok]

lemma emitOverdue_customers (clients : List Client) (insOk : Nat → Bool)
    (sendFails : Nat → Bool) (now : Int) :
    ∀ (db : DB) (l : List Customer),
      (emitOverdue clients insOk sendFails now db l).1.customers = db.customers
  | _, [] => rfl
  | db, c :: cs => by
    rw [emitOverdue, emitOverdue_customers clients insOk sendFails now _ cs,
      sendNotification_customers]

lemma emitOverdue_notifications (clients : List Client) (insOk : Nat → Bool)
    (sendFails : Nat → Bool) (now : Int) :
    ∀ (db : DB) (l : List Customer), (∀ c ∈ l, insOk c.id = true) →
      (emitOverdue clients insOk sendFails now db l).1.notifications.map
          notifBody
        = db.notifications.map notifBody
          ++ l.map fun c => ((overdueMsg c).type, (overdueMsg c).message)
  | _, [], _ => by simp [emitOverdue]
  | db, c :: cs, h => by
    have hc : insOk c.id = true := h c (List.mem_cons_self c cs)
    rw [emitOverdue, emitOverdue_notifications clients insOk sendFails now _ cs
      (fun x hx => h x (List.mem_cons_of_mem c hx)), hc, sendNotification_ok]
    simp [notifBody]

/-! ### Claim theorems -/

/-- C4: for every call to sendNotification, the notification row is inserted
first, and only if the insert succeeds is the serialized type/message payload
sent to exactly the subscribers whose connection state is open at that moment;
if the insert fails, no broadcast occurs, the error is logged, and the emitter
returns normally instead of throwing to its caller. -/
theorem sendNotification_insert_then_broadcast (db : DB) (clients : List Client)
    (insertOk : Bool) (sendFails : Nat → Bool) (m : NotifMsg) (now : Int) :
    (insertOk = true →
      (sendNotification db clients insertOk sendFails m now).db.notifications.map
            notifBody
          = db.notifications.map notifBody ++ [(m.type, m.message)]
        ∧ (sendNotification db clients insertOk sendFails m now).outcomes.map
            SendOutcome.clientId
          = (clients.filter fun c => c.readyState == wsOPEN).map Client.id
        ∧ (∀ o ∈ (sendNotification db clients insertOk sendFails m now).outcomes,
            o.payload = serializeMsg m)
        ∧ (sendNotification db clients insertOk sendFails m now).errorLogged
            = false)
    ∧ (insertOk = false →
        sendNotification db clients insertOk sendFails m now = ⟨db, [], true⟩) := by
  constructor
  · rintro rfl
    refine ⟨?_, ?_, ?_, ?_⟩
    · simp [sendNotification_ok, notifBody]
    · simp [sendNotification_ok, broadcastRun_map_clientId]
    · simp only [sendNotification_ok]
      exact broadcastRun_payload sendFails (serializeMsg m) clients
    · simp [sendNotification_ok]
  · rintro rfl
    exact sendNotification_fail db clients sendFails m now

/-- Witness for C4 at a concrete database, one open and one closed client. -/
theorem sendNotification_insert_then_broadcast_witness :
    ((sendNotification ⟨[], [], [], []⟩ [⟨0, 1⟩, ⟨1, 3⟩] true (fun _ => false)
        ⟨"t", "m"⟩ 5).errorLogged = false)
    ∧ sendNotification ⟨[], [], [], []⟩ [⟨0, 1⟩, ⟨1, 3⟩] false (fun _ => false)
        ⟨"t", "m"⟩ 5 = ⟨⟨[], [], [], []⟩, [], true⟩ :=
  ⟨((sendNotification_insert_then_broadcast ⟨[], [], [], []⟩ [⟨0, 1⟩, ⟨1, 3⟩]
      true (fun _ => false) ⟨"t", "m"⟩ 5).1 rfl).2.2.2,
    (sendNotification_insert_then_broadcast ⟨[], [], [], []⟩ [⟨0, 1⟩, ⟨1, 3⟩]
      false (fun _ => false) ⟨"t", "m"⟩ 5).2 rfl⟩

/-- C5: during a broadcast, whatever subset of sends fails, every open
subscriber still receives a send attempt carrying the serialized payload;
a failure affects only that subscriber's own delivery flag. -/
theorem broadcast_attempts_every_open_subscriber (db : DB)
    (clients : List Client) (sendFails : Nat → Bool) (m : NotifMsg) (now : Int)
    (c : Client) (hc : c ∈ clients) (hopen : c.readyState = wsOPEN) :
    ∃ o ∈ (sendNotification db clients true sendFails m now).outcomes,
      o.clientId = c.id ∧ o.payload = serializeMsg m
        ∧ o.delivered = !(sendFails c.id) := by
  refine ⟨⟨c.id, serializeMsg m, !(sendFails c.id)⟩, ?_, rfl, rfl, rfl⟩
  simp only [sendNotification_ok]
  exact broadcastRun_attempt sendFails (serializeMsg m) clients c hc hopen

/-- Witness for C5: client 0's send fails, yet open client 1 is attempted
(and client 0 itself is attempted, undelivered). -/
theorem broadcast_attempts_every_open_subscriber_witness :
    (∃ o ∈ (sendNotification ⟨[], [], [], []⟩ [⟨0, 1⟩, ⟨1, 1⟩] true
        (fun i => i == 0) ⟨"t", "m"⟩ 5).outcomes,
      o.clientId = 1 ∧ o.payload = serializeMsg ⟨"t", "m"⟩ ∧ o.delivered = true)
    ∧ (∃ o ∈ (sendNotification ⟨[], [], [], []⟩ [⟨0, 1⟩, ⟨1, 1⟩] true
        (fun i => i == 0) ⟨"t", "m"⟩ 5).outcomes,
      o.clientId = 0 ∧ o.payload = serializeMsg ⟨"t", "m"⟩
        ∧ o.delivered = false) :=
  ⟨broadcast_attempts_every_open_subscriber ⟨[], [], [], []⟩ [⟨0, 1⟩, ⟨1, 1⟩]
      (fun i => i == 0) ⟨"t", "m"⟩ 5 ⟨1, 1⟩ (by decide) rfl,
    broadcast_attempts_every_open_subscriber ⟨[], [], [], []⟩ [⟨0, 1⟩, ⟨1, 1⟩]
      (fun i => i == 0) ⟨"t", "m"⟩ 5 ⟨0, 1⟩ (by decide) rfl⟩

/-- C1: every POST /payments request that answers the success message leaves
every customer carrying the submitted customerId with paymentStatus
"Completed" and has inserted exactly one payment row with the submitted
customerId and amount. -/
theorem postPayments_success (db : DB) (clients : List Client)
    (f : PaymentFaults) (sendFails : Nat → Bool) (customerId : Nat)
    (amount : Int) (now : Int)
    (h : (postPayments db clients f sendFails customerId amount now).resp
          = .ok "Payment processed successfully") :
    (postPayments db clients f sendFails customerId amount now).db.payments
        = db.payments ++ [⟨db.payments.length, customerId, amount, now⟩]
      ∧ ∀ c ∈ (postPayments db clients f sendFails customerId
          amount now).db.customers,
          c.id = customerId → c.paymentStatus = "Completed" := by
  rcases f with ⟨i, u, n⟩
  cases i
  · exact absurd h (by simp [postPayments, dbInsertPayment])
  cases u
  · exact absurd h (by simp [postPayments, dbInsertPayment,
      dbUpdatePaymentStatus])
  constructor
  · simp [postPayments, dbInsertPayment, dbUpdatePaymentStatus,
      sendNotification_payments]
  · intro c hc hid
    simp [postPayments, dbInsertPayment, dbUpdatePaymentStatus,
      sendNotification_customers, List.mem_map] at hc
    rcases hc with ⟨a, _, ha⟩
    by_cases hai : a.id = customerId
    · rw [if_pos hai] at ha
      rw [← ha]
    · rw [if_neg hai] at ha
      exact absurd (ha ▸ hid) hai

/-- Witness for C1: a concrete pending customer, a fault-free execution. -/
theorem postPayments_success_witness :
    (postPayments ⟨[], [⟨1, "Acme", "555", 500, 0, "Pending"⟩], [], []⟩ []
        ⟨true, true, true⟩ (fun _ => false) 1 100 7).db.payments
      = [] ++ [⟨0, 1, 100, 7⟩]
    ∧ ∀ c ∈ (postPayments ⟨[], [⟨1, "Acme", "555", 500, 0, "Pending"⟩], [], []⟩
        [] ⟨true, true, true⟩ (fun _ => false) 1 100 7).db.customers,
        c.id = 1 → c.paymentStatus = "Completed" :=
  postPayments_success ⟨[], [⟨1, "Acme", "555", 500, 0, "Pending"⟩], [], []⟩ []
    ⟨true, true, true⟩ (fun _ => false) 1 100 7 rfl

/-- C9: POST /payments is not atomic across its three statements: with the
payment insert succeeding and the status update failing, the handler answers
500 while the payment row is already persisted and the customer's
paymentStatus is still "Pending", not "Completed". -/
theorem postPayments_not_atomic :
    ((postPayments ⟨[], [⟨1, "Acme", "555", 500, 0, "Pending"⟩], [], []⟩ []
        ⟨true, false, true⟩ (fun _ => false) 1 100 7).resp
      = .error 500 "Payment processing failed: StorageError")
    ∧ (postPayments ⟨[], [⟨1, "Acme", "555", 500, 0, "Pending"⟩], [], []⟩ []
        ⟨true, false, true⟩ (fun _ => false) 1 100 7).db.payments
      = [⟨0, 1, 100, 7⟩]
    ∧ (postPayments ⟨[], [⟨1, "Acme", "555", 500, 0, "Pending"⟩], [], []⟩ []
        ⟨true, false, true⟩ (fun _ => false) 1 100 7).db.customers
      = [⟨1, "Acme", "555", 500, 0, "Pending"⟩] :=
  ⟨rfl, rfl, rfl⟩

/-- C2: an invocation of the overdue scan selects exactly the customers with
paymentStatus "Pending" and dueDate before now, appends exactly one
notification row of type "payment_overdue" per selected customer whose
message contains the customer's name, and leaves the customers table
unchanged, so a customer still satisfying the condition is selected again
by the next tick (no de-duplication). -/
theorem checkOverduePayments_tick (db : DB) (clients : List Client)
    (insOk : Nat → Bool) (sendFails : Nat → Bool) (now : Int)
    (h : ∀ c ∈ overdueQuery db now, insOk c.id = true) :
    (∀ c, c ∈ overdueQuery db now ↔
        c ∈ db.customers ∧ c.paymentStatus = "Pending" ∧ c.dueDate < now)
    ∧ (checkOverduePayments db clients true insOk sendFails
        now).db.notifications.map notifBody
      = db.notifications.map notifBody
        ++ ((overdueQuery db now).map
            fun c => ("payment_overdue", (overdueMsg c).message))
    ∧ (∀ c ∈ overdueQuery db now,
        ∃ pre post, (overdueMsg c).message = pre ++ c.name ++ post)
    ∧ (checkOverduePayments db clients true insOk sendFails now).db.customers
      = db.customers
    ∧ overdueQuery (checkOverduePayments db clients true insOk sendFails
        now).db now
      = overdueQuery db now := by
  have hcust : (checkOverduePayments db clients true insOk sendFails
      now).db.customers = db.customers := by
    simp only [checkOverduePayments, if_pos]
    exact emitOverdue_customers clients insOk sendFails now db
      (overdueQuery db now)
  refine ⟨?_, ?_, ?_, hcust, ?_⟩
  · intro c
    simp [overdueQuery, List.mem_filter]
  · simp only [checkOverduePayments, if_pos]
    exact emitOverdue_notifications clients insOk sendFails now db
      (overdueQuery db now) h
  · intro c _
    exact ⟨"Payment overdue for Customer: ",
      " (ID: " ++ toString c.id ++ ")", by simp [overdueMsg, String.append_assoc]⟩
  · rw [overdueQuery, hcust, overdueQuery]

/-- Witness for C2: one pending customer past due, a fault-free tick. -/
theorem checkOverduePayments_tick_witness :
    (∀ c, c ∈ overdueQuery ⟨[], [⟨1, "Acme", "555", 500, 0, "Pending"⟩], [], []⟩ 5 ↔
        c ∈ [Customer.mk 1 "Acme" "555" 500 0 "Pending"]
          ∧ c.paymentStatus = "Pending" ∧ c.dueDate < 5)
    ∧ (checkOverduePayments ⟨[], [⟨1, "Acme", "555", 500, 0, "Pending"⟩], [], []⟩
        [] true (fun _ => true) (fun _ => false) 5).db.notifications.map notifBody
      = [].map notifBody
        ++ ((overdueQuery ⟨[], [⟨1, "Acme", "555", 500, 0, "Pending"⟩], [], []⟩
            5).map fun c => ("payment_overdue", (overdueMsg c).message))
    ∧ (∀ c ∈ overdueQuery ⟨[], [⟨1, "Acme", "555", 500, 0, "Pending"⟩], [], []⟩ 5,
        ∃ pre post, (overdueMsg c).message = pre ++ c.name ++ post)
    ∧ (checkOverduePayments ⟨[], [⟨1, "Acme", "555", 500, 0, "Pending"⟩], [], []⟩
        [] true (fun _ => true) (fun _ => false) 5).db.customers
      = [⟨1, "Acme", "555", 500, 0, "Pending"⟩]
    ∧ overdueQuery (checkOverduePayments
        ⟨[], [⟨1, "Acme", "555", 500, 0, "Pending"⟩], [], []⟩
        [] true (fun _ => true) (fun _ => false) 5).db 5
      = overdueQuery ⟨[], [⟨1, "Acme", "555", 500, 0, "Pending"⟩], [], []⟩ 5 :=
  checkOverduePayments_tick ⟨[], [⟨1, "Acme", "555", 500, 0, "Pending"⟩], [], []⟩
    [] (fun _ => true) (fun _ => false) 5 (by decide)

lemma insertRowsTx_fail (rowOk : SheetRow → Bool) :
    ∀ (cs : List Customer) (rows : List SheetRow),
      (∃ r ∈ rows, rowOk r = false) →
      insertRowsTx rowOk cs rows = .error "StorageError"
  | _, [], h => by simp at h
  | cs, r :: rs, h => by
    by_cases hr : rowOk r
    · rcases h with ⟨x, hx, hxf⟩
      rcases List.mem_cons.mp hx with rfl | hx
      · exact absurd hr (by simp [hxf])
      · simp only [insertRowsTx, if_pos hr]
        exact insertRowsTx_fail rowOk _ rs ⟨x, hx, hxf⟩
    · simp only [insertRowsTx, if_neg hr]

lemma insertRowsTx_ok (rowOk : SheetRow → Bool) :
    ∀ (rows : List SheetRow) (cs : List Customer),
      (∀ r ∈ rows, rowOk r = true) →
      ∃ cs', insertRowsTx rowOk cs rows = .ok cs'
        ∧ cs'.map custBody = cs.map custBody ++ rows.map rowBody
  | [], cs, _ => ⟨cs, rfl, by simp [insertRowsTx]⟩
  | r :: rs, cs, h => by
    have hr : rowOk r = true := h r (List.mem_cons_self r rs)
    obtain ⟨cs', h1, h2⟩ := insertRowsTx_ok rowOk rs
      (cs ++ [rowToCustomer cs.length r])
      (fun x hx => h x (List.mem_cons_of_mem r hx))
    refine ⟨cs', ?_, ?_⟩
    · simp only [insertRowsTx, if_pos hr]
      exact h1
    · rw [h2]
      simp [rowToCustomer, custBody, rowBody]

lemma uploadCustomers_only_customers (db : DB) (fileRows : Option (List SheetRow))
    (rowOk : SheetRow → Bool) (commitOk : Bool) :
    (uploadCustomers db fileRows rowOk commitOk).1.notifications
        = db.notifications
      ∧ (uploadCustomers db fileRows rowOk commitOk).1.users = db.users
      ∧ (uploadCustomers db fileRows rowOk commitOk).1.payments
        = db.payments := by
  cases fileRows with
  | none => exact ⟨rfl, rfl, rfl⟩
  | some rows =>
    cases hr : insertRowsTx rowOk db.customers rows with
    | ok cs => cases commitOk <;> simp [uploadCustomers, hr]
    | error e => simp [uploadCustomers, hr]

/-- C3: bulk import is all-or-nothing: if inserting any row of the batch
fails, the database is left unchanged and the caller receives a 500 failure
response; if no row fails (and the commit goes through), the response is the
success message and exactly the batch's rows have been appended to the
customers table. -/
theorem uploadCustomers_all_or_nothing (db : DB) (rows : List SheetRow)
    (rowOk : SheetRow → Bool) (commitOk : Bool) :
    ((∃ r ∈ rows, rowOk r = false) →
      uploadCustomers db (some rows) rowOk commitOk
        = (db, .error 500 "Failed to process file: StorageError"))
    ∧ ((∀ r ∈ rows, rowOk r = true) → commitOk = true →
      (uploadCustomers db (some rows) rowOk commitOk).2
          = .ok "Customers uploaded successfully"
        ∧ (uploadCustomers db (some rows) rowOk
            commitOk).1.customers.map custBody
          = db.customers.map custBody ++ rows.map rowBody) := by
  constructor
  · intro h
    have hf := insertRowsTx_fail rowOk db.customers rows h
    simp [uploadCustomers, hf]
  · rintro h rfl
    obtain ⟨cs', h1, h2⟩ := insertRowsTx_ok rowOk rows db.customers h
    exact ⟨by simp [uploadCustomers, h1], by simp [uploadCustomers, h1, h2]⟩

/-- Witness for C3: a two-row batch whose second row fails inserts nothing
and answers 500; the same batch with both rows accepted persists both rows
and answers the success message. -/
theorem uploadCustomers_all_or_nothing_witness :
    uploadCustomers ⟨[], [], [], []⟩
        (some [⟨"A", "1", 10, 0, "Pending"⟩, ⟨"B", "2", 20, 0, "Pending"⟩])
        (fun r => r.rowName != "B") true
      = (⟨[], [], [], []⟩, .error 500 "Failed to process file: StorageError")
    ∧ ((uploadCustomers ⟨[], [], [], []⟩
        (some [⟨"A", "1", 10, 0, "Pending"⟩, ⟨"B", "2", 20, 0, "Pending"⟩])
        (fun _ => true) true).2 = .ok "Customers uploaded successfully"
      ∧ (uploadCustomers ⟨[], [], [], []⟩
          (some [⟨"A", "1", 10, 0, "Pending"⟩, ⟨"B", "2", 20, 0, "Pending"⟩])
          (fun _ => true) true).1.customers.map custBody
        = ([] : List Customer).map custBody
          ++ [SheetRow.mk "A" "1" 10 0 "Pending",
              SheetRow.mk "B" "2" 20 0 "Pending"].map rowBody) :=
  ⟨(uploadCustomers_all_or_nothing ⟨[], [], [], []⟩
      [⟨"A", "1", 10, 0, "Pending"⟩, ⟨"B", "2", 20, 0, "Pending"⟩]
      (fun r => r.rowName != "B") true).1 (by decide),
    (uploadCustomers_all_or_nothing ⟨[], [], [], []⟩
      [⟨"A", "1", 10, 0, "Pending"⟩, ⟨"B", "2", 20, 0, "Pending"⟩]
      (fun _ => true) true).2 (by decide) rfl⟩

/-- C10: a fault-free POST /customers answers the success message, appends
the customer row, appends exactly one notification of type "customer_added",
and broadcasts it to every open subscriber; bulk import via
POST /upload-customers never touches the notifications table. -/
theorem postCustomers_one_notification (db : DB) (clients : List Client)
    (sendFails : Nat → Bool) (name contact : String)
    (outstandingAmount dueDate : Int) (paymentStatus : String) (now : Int) :
    (postCustomers db clients true true sendFails name contact
        outstandingAmount dueDate paymentStatus now).resp
      = .ok "Customer added successfully"
    ∧ (postCustomers db clients true true sendFails name contact
        outstandingAmount dueDate paymentStatus now).db.notifications.map
          notifBody
      = db.notifications.map notifBody
        ++ [("customer_added", "New customer " ++ name ++ " added successfully")]
    ∧ (postCustomers db clients true true sendFails name contact
        outstandingAmount dueDate paymentStatus now).db.customers.map custBody
      = db.customers.map custBody
        ++ [(name, contact, outstandingAmount, dueDate, paymentStatus)]
    ∧ (postCustomers db clients true true sendFails name contact
        outstandingAmount dueDate paymentStatus now).outcomes.map
          SendOutcome.clientId
      = (clients.filter fun c => c.readyState == wsOPEN).map Client.id
    ∧ ∀ (rows : Option (List SheetRow)) (rowOk : SheetRow → Bool)
        (commitOk : Bool),
        (uploadCustomers db rows rowOk commitOk).1.notifications
          = db.notifications := by
  refine ⟨?_, ?_, ?_, ?_, ?_⟩
  · simp [postCustomers, dbInsertCustomer, sendNotification_ok]
  · simp [postCustomers, dbInsertCustomer, sendNotification_ok, notifBody]
  · simp [postCustomers, dbInsertCustomer, sendNotification_ok, custBody]
  · simp [postCustomers, dbInsertCustomer, sendNotification_ok,
      broadcastRun_map_clientId]
  · intro rows rowOk commitOk
    exact (uploadCustomers_only_customers db rows rowOk commitOk).1

lemma bcryptHash_injective {p q : String} (h : bcryptHash p = bcryptHash q) :
    p = q := by
  have h2 := congrArg String.data h
  simp only [bcryptHash, String.data_append] at h2
  exact String.ext (List.append_cancel_left h2)

lemma jwtSign_ne_empty (id : Nat) (secret : String) :
    jwtSign id secret ≠ "" := by
  intro h
  have h2 := congrArg String.length h
  rw [jwtSign, String.length_append, String.length_append,
    String.length_append, show "jwt.".length = 4 from rfl,
    show "".length = 0 from rfl] at h2
  omega

/-- C6: after an accepted registration, logging in with the same email and
the original password answers a non-empty token, and logging in with any
other password answers 401 Invalid credentials. -/
theorem register_then_login (db : DB) (name email password secret : String)
    (h : (registerUser db true name email password).2
          = .ok "User registered successfully") :
    (∃ t, loginUser (registerUser db true name email password).1 true secret
        email password = .token t ∧ t ≠ "")
    ∧ ∀ wrong, wrong ≠ password →
        loginUser (registerUser db true name email password).1 true secret
          email wrong = .unauthorized := by
  by_cases hall : db.users.all (fun u => u.email != email) = true
  · have hreg : (registerUser db true name email password).1
        = { db with users := db.users ++
            [⟨db.users.length, name, email, bcryptHash password⟩] } := by
      simp [registerUser, dbInsertUser, hall]
    have hfilter : ({ db with users := db.users ++
        [⟨db.users.length, name, email, bcryptHash password⟩] } : DB).users.filter
          (fun u => u.email == email)
        = [⟨db.users.length, name, email, bcryptHash password⟩] := by
      rw [List.filter_append]
      have hnil : db.users.filter (fun u => u.email == email) = [] := by
        refine List.filter_eq_nil_iff.mpr fun u hu => ?_
        have := List.all_eq_true.mp hall u hu
        simpa using this
      simp [hnil]
    constructor
    · refine ⟨jwtSign db.users.length secret, ?_,
        jwtSign_ne_empty db.users.length secret⟩
      rw [hreg]
      simp [loginUser, hfilter, bcryptCompare]
    · intro wrong hw
      rw [hreg]
      have hcmp : bcryptCompare wrong (bcryptHash password) = false := by
        rw [bcryptCompare]
        refine beq_eq_false_iff_ne.mpr fun heq => ?_
        exact hw (bcryptHash_injective heq).symm
      simp [loginUser, hfilter, hcmp]
  · exact absurd h (by simp [registerUser, dbInsertUser, hall])

/-- Witness for C6: register on an empty database, then log in with the
right and with a wrong password. -/
theorem register_then_login_witness :
    (∃ t, loginUser (registerUser ⟨[], [], [], []⟩ true "A" "a@b" "pw").1 true
        "s" "a@b" "pw" = .token t ∧ t ≠ "")
    ∧ ∀ wrong, wrong ≠ "pw" →
        loginUser (registerUser ⟨[], [], [], []⟩ true "A" "a@b" "pw").1 true
          "s" "a@b" wrong = .unauthorized :=
  register_then_login ⟨[], [], [], []⟩ "A" "a@b" "pw" "s" rfl

/-- C7: GET /customers/:id answers the single customer record when a
customer with that id exists (unique, as ids are), 404 when none does, and
500 on a storage failure.  (The handler is modelled from the spec's endpoint
table; see getCustomerById.) -/
theorem getCustomerById_spec (db : DB) (cid : Nat) :
    ((∀ c ∈ db.customers, c.id ≠ cid) →
      getCustomerById db true cid = .notFound)
    ∧ (∀ c ∈ db.customers, c.id = cid →
        (∀ d ∈ db.customers, d.id = cid → d = c) →
        getCustomerById db true cid = .found c)
    ∧ getCustomerById db false cid = .storageError := by
  refine ⟨?_, ?_, rfl⟩
  · intro h
    have hnil : db.customers.filter (fun c => c.id == cid) = [] :=
      List.filter_eq_nil_iff.mpr fun c hc => by simp [h c hc]
    simp [getCustomerById, hnil]
  · intro c hc hcid huniq
    have hmem : c ∈ db.customers.filter (fun x => x.id == cid) :=
      List.mem_filter.mpr ⟨hc, by simp [hcid]⟩
    cases hf : db.customers.filter (fun x => x.id == cid) with
    | nil => exact absurd (hf ▸ hmem) (List.not_mem_nil c)
    | cons d rest =>
      have hd : d ∈ db.customers.filter (fun x => x.id == cid) := by
        rw [hf]; exact List.mem_cons_self d rest
      have hdc : d = c := by
        rcases List.mem_filter.mp hd with ⟨hd1, hd2⟩
        exact huniq d hd1 (by simpa using hd2)
      simp [getCustomerById, hf, hdc]

/-- Witness for C7: a two-customer database, looked up at an existing and at
a missing id. -/
theorem getCustomerById_spec_witness :
    getCustomerById ⟨[], [⟨1, "Acme", "555", 500, 0, "Pending"⟩,
        ⟨2, "Bob", "666", 0, 0, "Completed"⟩], [], []⟩ true 2
      = .found ⟨2, "Bob", "666", 0, 0, "Completed"⟩
    ∧ getCustomerById ⟨[], [⟨1, "Acme", "555", 500, 0, "Pending"⟩,
        ⟨2, "Bob", "666", 0, 0, "Completed"⟩], [], []⟩ true 3
      = .notFound :=
  ⟨(getCustomerById_spec ⟨[], [⟨1, "Acme", "555", 500, 0, "Pending"⟩,
        ⟨2, "Bob", "666", 0, 0, "Completed"⟩], [], []⟩ 2).2.1
      ⟨2, "Bob", "666", 0, 0, "Completed"⟩ (by decide) rfl (by decide),
    (getCustomerById_spec ⟨[], [⟨1, "Acme", "555", 500, 0, "Pending"⟩,
        ⟨2, "Bob", "666", 0, 0, "Completed"⟩], [], []⟩ 3).1 (by decide)⟩

/-- C8: when the overdue scanner's customer query fails, the tick is skipped
entirely: the database is untouched, nothing is broadcast, the error is
logged, the scanner returns normally, and the following tick behaves exactly
as a scan of the then-current database from scratch. -/
theorem checkOverduePayments_query_failure (db : DB) (clients : List Client)
    (insOk : Nat → Bool) (sendFails : Nat → Bool) (now : Int) :
    checkOverduePayments db clients false insOk sendFails now = ⟨db, [], true⟩
    ∧ ∀ (queryOk2 : Bool) (insOk2 sendFails2 : Nat → Bool) (now2 : Int),
        checkOverduePayments
          (checkOverduePayments db clients false insOk sendFails now).db
          clients queryOk2 insOk2 sendFails2 now2
        = checkOverduePayments db clients queryOk2 insOk2 sendFails2 now2 :=
  ⟨rfl, fun _ _ _ _ => rfl⟩

end Backend
